import Mathlib

/-!
Shallow embedding of the Safety Index Calculator of the SoloMate backend
(`app/api/routes/safety.py`, with configuration defaults from
`app/core/config.py` and the report-type enum from `app/models/schemas.py`).

Python floats are modelled by `ℚ`; timestamps are modelled by ages in days
relative to `datetime.utcnow()` (a `reported_at` in the past has a
non-negative age).  Database calls and the geodesic distance library are
modelled as parameters: fallible fetches return `Except String _`, and the
distance function is passed in explicitly.
-/

namespace SoloMate

/-- Python `round` to 0 decimals: round half to even (banker's rounding). -/
def pyRound (x : ℚ) : ℤ :=
  if Int.fract x < 1/2 then ⌊x⌋
  else if 1/2 < Int.fract x then ⌊x⌋ + 1
  else if ⌊x⌋ % 2 = 0 then ⌊x⌋ else ⌊x⌋ + 1

/-- Python `round(x, 2)`. -/
def round2 (x : ℚ) : ℚ := (pyRound (x * 100) : ℚ) / 100

/-- Python `round(x, 3)`. -/
def round3 (x : ℚ) : ℚ := (pyRound (x * 1000) : ℚ) / 1000

/-- `SafetyReportType` enum from `app/models/schemas.py`. -/
inductive SafetyReportType
  | UNSAFE_AREA
  | WELL_LIT
  | POLICE_PRESENCE
  | CROWDED_AREA
  | EMERGENCY_SERVICES
  | UNSAFE_TRANSPORT
  | SAFE_TRANSPORT
  | TOURIST_SCAM
  | PICKPOCKET_RISK
  | OTHER
  deriving DecidableEq

/-- The `positive_types` list in `calculate_reports_factor`. -/
def positive_types : List SafetyReportType :=
  [.WELL_LIT, .POLICE_PRESENCE, .CROWDED_AREA, .EMERGENCY_SERVICES, .SAFE_TRANSPORT]

/-- The `negative_types` list in `calculate_reports_factor`. -/
def negative_types : List SafetyReportType :=
  [.UNSAFE_AREA, .UNSAFE_TRANSPORT, .TOURIST_SCAM, .PICKPOCKET_RISK]

/-- A safety report as consumed by `calculate_reports_factor`: the dicts
`{"type": ..., "severity": ..., "reported_at": ...}` built by the callers.
`days_old` stands for `(datetime.utcnow() - report['reported_at']).days`. -/
structure SafetyReport where
  type : SafetyReportType
  severity : ℤ
  days_old : ℤ
  deriving DecidableEq

/-- `weight = max(0.1, 1 - (days_old / 30))` in `calculate_reports_factor`. -/
def reportWeight (r : SafetyReport) : ℚ := max (1/10) (1 - (r.days_old : ℚ) / 30)

/-- The per-report `score` branch of `calculate_reports_factor`. -/
def reportScore (r : SafetyReport) : ℚ :=
  if r.type ∈ positive_types then (r.severity : ℚ) / 10
  else if r.type ∈ negative_types then 1 - (r.severity : ℚ) / 10
  else 1/2

/-- `SafetyIndexCalculator.calculate_reports_factor` (safety.py lines 54-93). -/
def calculate_reports_factor (reports : List SafetyReport) : ℚ :=
  if reports = [] then 1/2
  else
    let weighted_score := reports.foldl (fun acc r => acc + reportScore r * reportWeight r) 0
    let total_weight := reports.foldl (fun acc r => acc + reportWeight r) 0
    if 0 < total_weight then weighted_score / total_weight else 1/2

/-- `SafetyIndexCalculator.calculate_time_factor` (safety.py lines 29-40). -/
def calculate_time_factor (hour : ℤ) : ℚ :=
  if 22 ≤ hour ∨ hour ≤ 6 then 6/10
  else if 8 ≤ hour ∧ hour ≤ 18 then 1
  else 8/10

/-- `SafetyIndexCalculator.calculate_density_factor` (safety.py lines 42-52). -/
def calculate_density_factor (active_users_count : ℤ) : ℚ :=
  if 20 ≤ active_users_count then 1
  else if 10 ≤ active_users_count then 8/10
  else if 5 ≤ active_users_count then 6/10
  else 4/10

/-- The safety-index weights from `app/core/config.py` (`Settings`). -/
structure SafetyWeights where
  reports : ℚ
  time : ℚ
  density : ℚ
  deriving DecidableEq

/-- The configuration defaults: reports 0.4, time 0.3, density 0.3. -/
def defaultWeights : SafetyWeights := ⟨4/10, 3/10, 3/10⟩

/-- The attenuated weighted sum of safety.py lines 252-260:
`reports_factor * (Wr*0.8) + time_factor * (Wt*0.8) + density_factor * (Wd*0.8)`. -/
def baseIndex (w : SafetyWeights) (reports_factor time_factor density_factor : ℚ) : ℚ :=
  reports_factor * (w.reports * (8/10)) +
  time_factor * (w.time * (8/10)) +
  density_factor * (w.density * (8/10))

/-- The unclamped `safety_index` of safety.py lines 257-266 (identical in
`calculate_city_safety_index` and `calculate_area_safety_index`): the base is
multiplied by the news factor, and when `abs(news_factor - 1.0) > 0.1` the
additive contribution `(news_factor - 1.0) * 0.2` is added. -/
def rawSafetyIndex (w : SafetyWeights) (rf tf df nf : ℚ) : ℚ :=
  let safety_index := baseIndex w rf tf df * nf
  if 1/10 < |nf - 1| then safety_index + (nf - 1) * (2/10) else safety_index

/-- Final score of `calculate_city_safety_index` (safety.py lines 268-272):
clamp to [0,1], scale by 10, round to 2 decimals. -/
def calculate_city_safety_index (w : SafetyWeights) (rf tf df nf : ℚ) : ℚ :=
  round2 (max 0 (min 1 (rawSafetyIndex w rf tf df nf)) * 10)

/-- The response of `calculate_area_safety_index` (safety.py lines 361-376),
restricted to its numeric payload; the raw report list is not part of it. -/
structure AreaSafetyResult where
  safety_index : ℚ
  time_factor : ℚ
  density_factor : ℚ
  reports_factor : ℚ
  news_factor : ℚ
  deriving DecidableEq

/-- `calculate_area_safety_index` (safety.py lines 342-376) after its factors
have been gathered: the same clamping/scaling/rounding as the city variant. -/
def calculate_area_safety_index (w : SafetyWeights) (rf tf df nf : ℚ) : AreaSafetyResult :=
  { safety_index := round2 (max 0 (min 1 (rawSafetyIndex w rf tf df nf)) * 10)
    time_factor := round2 tf
    density_factor := round2 df
    reports_factor := round2 rf
    news_factor := round3 nf }

/-- A `NewsArticle` row as used by `calculate_news_factor`.  `processedAgo`
is `utcnow - processedAt` in days (`none` when `processedAt` is null);
optional columns are `Option`. -/
structure NewsArticleRow where
  id : ℕ
  cityId : Option ℕ
  latitude : Option ℚ
  longitude : Option ℚ
  locationRadius : Option ℚ
  threatLevel : ℚ
  confidence : ℚ
  sentimentPolarity : ℚ
  processedAgo : Option ℚ
  isRelevant : Bool
  isProcessed : Bool
  deriving DecidableEq

/-- A `NewsSafetyImpact` row.  `expiresInDays` is `expiresAt - utcnow` in
days (negative once the expiry timestamp has passed); the column is stored
on the row but `calculate_news_factor` reads only the other fields. -/
structure NewsImpactRow where
  newsArticleId : ℕ
  isActive : Bool
  impactFactor : ℚ
  weightFactor : ℚ
  decayFactor : ℚ
  expiresInDays : ℚ
  deriving DecidableEq

/-- Python truthiness of an optional float: `None` and `0.0` are falsy. -/
def truthy : Option ℚ → Bool
  | none => false
  | some v => decide (v ≠ 0)

/-- Python `article.locationRadius or 50.0`: `None` (and the falsy `0.0`)
fall back to the 50 km default. -/
def radiusOrDefault (r : Option ℚ) : ℚ :=
  match r with
  | none => 50
  | some v => if v = 0 then 50 else v

/-- The WHERE clause of the `db.newsarticle.find_many` call in
`calculate_news_factor` (safety.py lines 101-117): city-tied or fully
geo-tagged, processed within the last 7 days, relevant and processed. -/
def newsDbWhere (city_id : ℕ) (a : NewsArticleRow) : Bool :=
  (a.cityId == some city_id ||
    (a.latitude.isSome && a.longitude.isSome && a.locationRadius.isSome)) &&
  (match a.processedAgo with
   | none => false
   | some t => decide (t ≤ 7)) &&
  a.isRelevant && a.isProcessed

/-- The geographic relevance filter of safety.py lines 126-137.  `dist`
models `geodesic(target, article).kilometers`; its arguments are target
latitude, target longitude, article latitude, article longitude. -/
def geoRelevant (dist : ℚ → ℚ → ℚ → ℚ → ℚ) (tlat tlon : ℚ) (city_id : ℕ)
    (a : NewsArticleRow) : Bool :=
  if truthy a.latitude && truthy a.longitude then
    decide (dist tlat tlon (a.latitude.getD 0) (a.longitude.getD 0) ≤
      radiusOrDefault a.locationRadius)
  else a.cityId == some city_id

/-- Per-article contribution when `NewsSafetyImpact` rows exist
(safety.py lines 155-160): `(Σ impactFactor*(weightFactor*decayFactor),
Σ weightFactor*decayFactor)`. -/
def impactDelta (impacts : List NewsImpactRow) : ℚ × ℚ :=
  ((impacts.map (fun i => i.impactFactor * (i.weightFactor * i.decayFactor))).sum,
   (impacts.map (fun i => i.weightFactor * i.decayFactor)).sum)

/-- Per-article fallback contribution from article-level analysis
(safety.py lines 161-184). -/
def fallbackDelta (a : NewsArticleRow) : ℚ × ℚ :=
  let safety_factor :=
    if a.threatLevel ≤ 3 then 1 + (3 - a.threatLevel) * (1/10)
    else if a.threatLevel ≤ 6 then 1
    else 1 - (a.threatLevel - 6) * (1/10)
  let safety_factor := safety_factor + a.sentimentPolarity * (5/100)
  let days_old : ℤ := match a.processedAgo with
    | some t => ⌊t⌋
    | none => 7
  let recency_weight := max (1/10) (1 - (days_old : ℚ) / 7)
  let weight := a.confidence * recency_weight
  (safety_factor * weight, weight)

/-- The accumulation loop of safety.py lines 146-184: for each relevant
article, fetch its active impacts (a fallible db call) and add its
contribution to the running `(total_impact, total_weight)` pair. -/
def accumImpacts (fetchImpacts : ℕ → Except String (List NewsImpactRow))
    (acc : ℚ × ℚ) : List NewsArticleRow → Except String (ℚ × ℚ)
  | [] => .ok acc
  | a :: rest =>
    match fetchImpacts a.id with
    | .error e => .error e
    | .ok impacts =>
      let d := if impacts = [] then fallbackDelta a else impactDelta impacts
      accumImpacts fetchImpacts (acc.1 + d.1, acc.2 + d.2) rest

/-- The body of the `try` block of `calculate_news_factor`
(safety.py lines 98-192).  `fetchArticles` models the filtered
`db.newsarticle.find_many` call, `fetchImpacts` the per-article
`db.newssafetyimpact.find_many` call; either may fail. -/
def newsFactorBody (fetchArticles : Except String (List NewsArticleRow))
    (fetchImpacts : ℕ → Except String (List NewsImpactRow))
    (dist : ℚ → ℚ → ℚ → ℚ → ℚ) (city_id : ℕ) (latitude longitude : ℚ) :
    Except String ℚ :=
  match fetchArticles with
  | .error e => .error e
  | .ok news_articles =>
    if news_articles = [] then .ok 1
    else
      let relevant_articles := news_articles.filter (geoRelevant dist latitude longitude city_id)
      if relevant_articles = [] then .ok 1
      else
        match accumImpacts fetchImpacts (0, 0) relevant_articles with
        | .error e => .error e
        | .ok (total_impact, total_weight) =>
          if 0 < total_weight then .ok (max (3/10) (min (3/2) (total_impact / total_weight)))
          else .ok 1

/-- `SafetyIndexCalculator.calculate_news_factor` (safety.py lines 95-196):
the `try` body with every exception swallowed into the neutral 1.0. -/
def calculate_news_factor (fetchArticles : Except String (List NewsArticleRow))
    (fetchImpacts : ℕ → Except String (List NewsImpactRow))
    (dist : ℚ → ℚ → ℚ → ℚ → ℚ) (city_id : ℕ) (latitude longitude : ℚ) : ℚ :=
  match newsFactorBody fetchArticles fetchImpacts dist city_id latitude longitude with
  | .ok v => v
  | .error _ => 1

/-- The article query against a concrete table: the db applies
`newsDbWhere` (safety.py lines 101-117). -/
def queryNewsArticles (articles : List NewsArticleRow) (city_id : ℕ) : List NewsArticleRow :=
  articles.filter (newsDbWhere city_id)

/-- The impact query against a concrete table: the db keeps the rows of the
article with `isActive = true` (safety.py lines 148-153); no other column
is consulted. -/
def queryImpacts (impacts : List NewsImpactRow) (articleId : ℕ) : List NewsImpactRow :=
  impacts.filter (fun i => i.newsArticleId == articleId && i.isActive)

/-- `calculate_news_factor` run against concrete db tables (both fetches
succeed and return the filtered rows). -/
def newsFactorOfTables (articles : List NewsArticleRow) (impacts : List NewsImpactRow)
    (dist : ℚ → ℚ → ℚ → ℚ → ℚ) (city_id : ℕ) (latitude longitude : ℚ) : ℚ :=
  calculate_news_factor (.ok (queryNewsArticles articles city_id))
    (fun articleId => .ok (queryImpacts impacts articleId))
    dist city_id latitude longitude

/-- A `City` row, as far as the calculator reads it. -/
structure City where
  latitude : ℚ
  longitude : ℚ
  deriving DecidableEq

/-- `SafetyIndexCalculator.calculate_city_safety_index`
(safety.py lines 198-272) after the report/activity fetches: `cityLookup`
models `db.city.find_unique` (`none` when no City record exists), in which
case the news factor is replaced by the neutral 1.0 (lines 241-248). -/
def calculate_city_safety_index_full (cityLookup : Option City)
    (reports : List SafetyReport) (active_users : ℤ) (current_hour : ℤ)
    (fetchArticles : Except String (List NewsArticleRow))
    (fetchImpacts : ℕ → Except String (List NewsImpactRow))
    (dist : ℚ → ℚ → ℚ → ℚ → ℚ) (w : SafetyWeights) (city_id : ℕ) : ℚ :=
  let time_factor := calculate_time_factor current_hour
  let density_factor := calculate_density_factor active_users
  let reports_factor := calculate_reports_factor reports
  let news_factor :=
    match cityLookup with
    | some city => calculate_news_factor fetchArticles fetchImpacts dist city_id
        city.latitude city.longitude
    | none => 1
  calculate_city_safety_index w reports_factor time_factor density_factor news_factor

/-- A verified safety report with coordinates, as consumed by
`get_safety_heatmap` (safety.py lines 574-645). -/
structure VerifiedReport where
  latitude : ℚ
  longitude : ℚ
  type : SafetyReportType
  severity : ℤ
  days_old : ℤ
  deriving DecidableEq

/-- The dict `{"type": ..., "severity": ..., "reported_at": ...}` built for
each report of a heatmap grid cell. -/
def toSafetyReport (r : VerifiedReport) : SafetyReport :=
  { type := r.type, severity := r.severity, days_old := r.days_old }

/-- Grid snapping of `get_safety_heatmap`:
`(round(lat/grid_size)*grid_size, round(lon/grid_size)*grid_size)`. -/
def gridCell (grid_size : ℚ) (r : VerifiedReport) : ℚ × ℚ :=
  ((pyRound (r.latitude / grid_size) : ℚ) * grid_size,
   (pyRound (r.longitude / grid_size) : ℚ) * grid_size)

/-- Distinct grid keys in first-insertion order, as produced by the Python
dict keyed on the snapped coordinates. -/
def dedupKeys (keys : List (ℚ × ℚ)) : List (ℚ × ℚ) :=
  keys.foldl (fun acc k => if k ∈ acc then acc else acc ++ [k]) []

/-- A heatmap cell of the response: the raw report list has been deleted,
only the score and the count remain (safety.py lines 624-630). -/
structure HeatmapCell where
  latitude : ℚ
  longitude : ℚ
  safety_score : ℚ
  report_count : ℕ
  deriving DecidableEq

/-- The grid construction of `get_safety_heatmap` (safety.py lines 601-630):
group the verified reports by snapped cell, score each cell by
`calculate_reports_factor(cell reports) * 10` and attach the count. -/
def get_safety_heatmap (grid_size : ℚ) (reports : List VerifiedReport) : List HeatmapCell :=
  (dedupKeys (reports.map (gridCell grid_size))).map (fun k =>
    let cellReports := reports.filter (fun r => gridCell grid_size r = k)
    { latitude := k.1
      longitude := k.2
      safety_score := calculate_reports_factor (cellReports.map toSafetyReport) * 10
      report_count := cellReports.length })

/-! ### Concrete fixtures used by witnesses and counterexamples -/

/-- A distance oracle reporting 1569 km (the haversine distance between
(0,0) and (10,10) is about 1569 km). -/
def distFar : ℚ → ℚ → ℚ → ℚ → ℚ := fun _ _ _ _ => 1569

/-- A distance oracle reporting 0 km. -/
def distZero : ℚ → ℚ → ℚ → ℚ → ℚ := fun _ _ _ _ => 0

/-- A relevant, processed article tied to city 1 whose coordinates (10,10)
lie far outside its 1 km radius around a (0,0) target. -/
def cityTiedFarArticle : NewsArticleRow :=
  ⟨1, some 1, some 10, some 10, some 1, 9, 1, 0, some 0, true, true⟩

/-- An active impact for article 1 with impact factor 0.5 and full weight. -/
def strongImpact : NewsImpactRow := ⟨1, true, 1/2, 1, 1, 10⟩

/-- A relevant, processed article tied to city 1 carrying no coordinates. -/
def cityOnlyArticle : NewsArticleRow :=
  ⟨1, some 1, none, none, none, 5, 1, 0, some 0, true, true⟩

/-- An impact for article 1 whose expiry timestamp passed a day ago but
whose active flag is still true. -/
def expiredActiveImpact : NewsImpactRow := ⟨1, true, 1/2, 1, 1, -1⟩

/-- An impact for article 1 whose active flag is false. -/
def inactiveImpact : NewsImpactRow := ⟨1, false, 1/2, 1, 1, 10⟩

/-- A verified report at (1.0001, 1.0001). -/
def raEx : VerifiedReport := ⟨10001/10000, 10001/10000, .OTHER, 5, 0⟩

/-- A verified report at (1.0049, 1.0049). -/
def rbEx : VerifiedReport := ⟨10049/10000, 10049/10000, .OTHER, 5, 0⟩

/-! ### Helper lemmas -/

lemma floor_le_pyRound (x : ℚ) : ⌊x⌋ ≤ pyRound x := by
  unfold pyRound
  split
  · exact le_refl _
  · split
    · omega
    · split <;> omega

lemma pyRound_le_ceil (x : ℚ) : pyRound x ≤ ⌈x⌉ := by
  have hfc : ⌊x⌋ ≤ ⌈x⌉ := Int.floor_le_ceil x
  have hfrac : 0 < Int.fract x → ⌊x⌋ + 1 ≤ ⌈x⌉ := by
    intro hpos
    rw [Int.add_one_le_ceil_iff]
    have := Int.fract_nonneg x
    have hne : Int.fract x ≠ 0 := ne_of_gt hpos
    have : (⌊x⌋ : ℚ) ≤ x := Int.floor_le x
    rcases lt_or_eq_of_le this with h | h
    · exact h
    · exfalso; apply hne; rw [Int.fract, ← h]; simp
  unfold pyRound
  split
  · exact hfc
  · rename_i h1
    push_neg at h1
    have hpos : 0 < Int.fract x := lt_of_lt_of_le (by norm_num) h1
    split
    · exact hfrac hpos
    · split
      · exact hfc
      · exact hfrac hpos

lemma pyRound_nonneg {x : ℚ} (hx : 0 ≤ x) : 0 ≤ pyRound x :=
  le_trans (Int.floor_nonneg.mpr hx) (floor_le_pyRound x)

lemma pyRound_le_of_le {x : ℚ} {n : ℤ} (h : x ≤ (n : ℚ)) : pyRound x ≤ n :=
  le_trans (pyRound_le_ceil x) (Int.ceil_le.mpr h)

lemma round2_nonneg {x : ℚ} (hx : 0 ≤ x) : 0 ≤ round2 x := by
  unfold round2
  have : (0 : ℚ) ≤ (pyRound (x * 100) : ℚ) := by
    exact_mod_cast pyRound_nonneg (by positivity)
  positivity

lemma round2_le_ten {x : ℚ} (hx : x ≤ 10) : round2 x ≤ 10 := by
  unfold round2
  have h1 : x * 100 ≤ ((1000 : ℤ) : ℚ) := by push_cast; linarith
  have h2 : pyRound (x * 100) ≤ 1000 := pyRound_le_of_le h1
  have h3 : (pyRound (x * 100) : ℚ) ≤ 1000 := by exact_mod_cast h2
  linarith

/-- The final clamp/scale/round step always lands in [0, 10]. -/
lemma score_bounds (x : ℚ) :
    0 ≤ round2 (max 0 (min 1 x) * 10) ∧ round2 (max 0 (min 1 x) * 10) ≤ 10 := by
  have h0 : 0 ≤ max 0 (min 1 x) := le_max_left 0 _
  have h1 : max 0 (min 1 x) ≤ 1 := by
    apply max_le (by norm_num)
    exact min_le_left 1 x
  exact ⟨round2_nonneg (by linarith), round2_le_ten (by linarith)⟩

lemma foldl_add_eq {α : Type} (f : α → ℚ) (l : List α) (a : ℚ) :
    l.foldl (fun acc r => acc + f r) a = a + (l.map f).sum := by
  induction l generalizing a with
  | nil => simp
  | cons x xs ih =>
    simp only [List.foldl_cons, List.map_cons, List.sum_cons, ih]
    ring

lemma not_pos_of_neg_type {t : SafetyReportType} (h : t ∈ negative_types) :
    t ∉ positive_types := by
  cases t <;> simp_all [positive_types, negative_types]

lemma reportWeight_pos (r : SafetyReport) : 0 < reportWeight r :=
  lt_of_lt_of_le (by norm_num) (le_max_left (1/10) _)

lemma reportScore_mem_unit {r : SafetyReport} (h1 : 1 ≤ r.severity) (h10 : r.severity ≤ 10) :
    0 ≤ reportScore r ∧ reportScore r ≤ 1 := by
  have hs1 : (1 : ℚ) ≤ (r.severity : ℚ) := by exact_mod_cast h1
  have hs10 : (r.severity : ℚ) ≤ 10 := by exact_mod_cast h10
  unfold reportScore
  split
  · constructor <;> [linarith; linarith]
  · split
    · constructor <;> [linarith; linarith]
    · norm_num

lemma total_weight_pos (reports : List SafetyReport) (hne : reports ≠ []) :
    0 < (reports.map reportWeight).sum := by
  cases reports with
  | nil => exact absurd rfl hne
  | cons r rs =>
    simp only [List.map_cons, List.sum_cons]
    have h1 : 0 < reportWeight r := reportWeight_pos r
    have h2 : 0 ≤ (rs.map reportWeight).sum := by
      apply List.sum_nonneg
      intro x hx
      obtain ⟨y, _, rfl⟩ := List.mem_map.mp hx
      exact le_of_lt (reportWeight_pos y)
    linarith

/-- `calculate_reports_factor` of a nonempty list is the weighted average. -/
lemma reports_factor_eq_weighted_avg (reports : List SafetyReport) (hne : reports ≠ []) :
    calculate_reports_factor reports =
      (reports.map (fun r => reportScore r * reportWeight r)).sum /
      (reports.map reportWeight).sum := by
  unfold calculate_reports_factor
  rw [if_neg hne]
  simp only [foldl_add_eq, zero_add]
  rw [if_pos (total_weight_pos reports hne)]

lemma reports_factor_mem_unit (reports : List SafetyReport)
    (hsev : ∀ r ∈ reports, 1 ≤ r.severity ∧ r.severity ≤ 10) :
    0 ≤ calculate_reports_factor reports ∧ calculate_reports_factor reports ≤ 1 := by
  rcases eq_or_ne reports [] with h | h
  · subst h; unfold calculate_reports_factor; norm_num
  · rw [reports_factor_eq_weighted_avg reports h]
    have htw : 0 < (reports.map reportWeight).sum := total_weight_pos reports h
    have hws_nonneg : 0 ≤ (reports.map (fun r => reportScore r * reportWeight r)).sum := by
      apply List.sum_nonneg
      intro x hx
      obtain ⟨y, hy, rfl⟩ := List.mem_map.mp hx
      exact mul_nonneg (reportScore_mem_unit (hsev y hy).1 (hsev y hy).2).1
        (le_of_lt (reportWeight_pos y))
    have hws_le : (reports.map (fun r => reportScore r * reportWeight r)).sum ≤
        (reports.map reportWeight).sum := by
      apply List.sum_le_sum
      intro r hr
      have hb := reportScore_mem_unit (hsev r hr).1 (hsev r hr).2
      calc reportScore r * reportWeight r ≤ 1 * reportWeight r :=
            mul_le_mul_of_nonneg_right hb.2 (le_of_lt (reportWeight_pos r))
        _ = reportWeight r := one_mul _
    exact ⟨div_nonneg hws_nonneg (le_of_lt htw), (div_le_one htw).mpr hws_le⟩

/-! ### Claim theorems -/

/-- C1: for every input (any report list, activity count, hour, news factor
value and configuration weights), the score returned by
`calculate_city_safety_index` and the `safety_index` field returned by
`calculate_area_safety_index` lie in [0, 10]: the raw index is clamped to
[0, 1], scaled by 10 and rounded to 2 decimals. -/
theorem C1_safety_index_in_range (reports : List SafetyReport)
    (active_users hour : ℤ) (nf : ℚ) (w : SafetyWeights) :
    (0 ≤ calculate_city_safety_index w (calculate_reports_factor reports)
        (calculate_time_factor hour) (calculate_density_factor active_users) nf ∧
      calculate_city_safety_index w (calculate_reports_factor reports)
        (calculate_time_factor hour) (calculate_density_factor active_users) nf ≤ 10) ∧
    (0 ≤ (calculate_area_safety_index w (calculate_reports_factor reports)
        (calculate_time_factor hour) (calculate_density_factor active_users) nf).safety_index ∧
      (calculate_area_safety_index w (calculate_reports_factor reports)
        (calculate_time_factor hour) (calculate_density_factor active_users) nf).safety_index ≤ 10) :=
  ⟨score_bounds _, score_bounds _⟩

/-- C2: the composer computes `index = (rf*Wr*0.8 + tf*Wt*0.8 + df*Wd*0.8) *
news_factor` and adds `(news_factor - 1) * 0.2` exactly when
`|news_factor - 1| > 0.1`; with the default weights, zero reports
(factor 0.5), activity 0 (factor 0.4), neutral news 1.0 at hour 12
(factor 1.0) the raw index is exactly 0.496 and the final score 4.96. -/
theorem C2_composer_and_scenario :
    (∀ (w : SafetyWeights) (rf tf df nf : ℚ),
      rawSafetyIndex w rf tf df nf =
        baseIndex w rf tf df * nf + (if 1/10 < |nf - 1| then (nf - 1) * (2/10) else 0)) ∧
    baseIndex defaultWeights (calculate_reports_factor []) (calculate_time_factor 12)
        (calculate_density_factor 0) =
      1/2 * (32/100) + 1 * (24/100) + 4/10 * (24/100) ∧
    rawSafetyIndex defaultWeights (calculate_reports_factor []) (calculate_time_factor 12)
        (calculate_density_factor 0) 1 = 496/1000 ∧
    calculate_city_safety_index defaultWeights (calculate_reports_factor [])
        (calculate_time_factor 12) (calculate_density_factor 0) 1 = 496/100 := by
  refine ⟨?_, ?_, ?_, ?_⟩
  · intro w rf tf df nf
    unfold rawSafetyIndex
    split_ifs <;> ring
  · norm_num [baseIndex, defaultWeights, calculate_reports_factor, calculate_time_factor,
      calculate_density_factor]
  · norm_num [rawSafetyIndex, baseIndex, defaultWeights, calculate_reports_factor,
      calculate_time_factor, calculate_density_factor]
  · norm_num [calculate_city_safety_index, rawSafetyIndex, baseIndex, defaultWeights,
      calculate_reports_factor, calculate_time_factor, calculate_density_factor, round2,
      pyRound, Int.fract]

/-- C3: `calculate_reports_factor` returns 0.5 on the empty list, otherwise
the weighted average of per-report scores (positive type → severity/10,
negative type → 1 − severity/10, other → 0.5) with weight
`max(0.1, 1 − days_old/30)`; a 60-day-old report weighs exactly 0.1, and for
severities in [1, 10] the result lies in [0, 1]. -/
theorem C3_reports_factor (reports : List SafetyReport) (r60 : SafetyReport)
    (h60 : r60.days_old = 60)
    (hsev : ∀ r ∈ reports, 1 ≤ r.severity ∧ r.severity ≤ 10) :
    calculate_reports_factor [] = 1/2 ∧
    reportWeight r60 = 1/10 ∧
    (reports ≠ [] → calculate_reports_factor reports =
      (reports.map (fun r => reportScore r * reportWeight r)).sum /
      (reports.map reportWeight).sum) ∧
    (∀ r ∈ reports, r.type ∈ positive_types → reportScore r = (r.severity : ℚ) / 10) ∧
    (∀ r ∈ reports, r.type ∈ negative_types → reportScore r = 1 - (r.severity : ℚ) / 10) ∧
    (∀ r ∈ reports, r.type ∉ positive_types → r.type ∉ negative_types → reportScore r = 1/2) ∧
    0 ≤ calculate_reports_factor reports ∧ calculate_reports_factor reports ≤ 1 := by
  refine ⟨by norm_num [calculate_reports_factor], ?_, reports_factor_eq_weighted_avg reports,
    ?_, ?_, ?_,
    (reports_factor_mem_unit reports hsev).1, (reports_factor_mem_unit reports hsev).2⟩
  · rw [reportWeight, h60]; norm_num
  · intro r _ hp; rw [reportScore, if_pos hp]
  · intro r _ hn
    rw [reportScore, if_neg (not_pos_of_neg_type hn), if_pos hn]
  · intro r _ hp hn; rw [reportScore, if_neg hp, if_neg hn]

/-- Witness for C3 at a concrete report list and a concrete 60-day-old
report. -/
theorem C3_reports_factor_witness :
    calculate_reports_factor [] = 1/2 ∧
    reportWeight ⟨.OTHER, 5, 60⟩ = 1/10 ∧
    0 ≤ calculate_reports_factor [⟨.WELL_LIT, 10, 0⟩] ∧
    calculate_reports_factor [⟨.WELL_LIT, 10, 0⟩] ≤ 1 := by
  obtain ⟨h1, h2, _, _, _, _, h7, h8⟩ :=
    C3_reports_factor [⟨.WELL_LIT, 10, 0⟩] ⟨.OTHER, 5, 60⟩ rfl (by decide)
  exact ⟨h1, h2, h7, h8⟩

/-- C4: for every hour in [0, 23], `calculate_time_factor` returns one of
0.6, 0.8, 1.0 — 0.6 on [22, 23] ∪ [0, 6], 1.0 on [8, 18], 0.8 otherwise —
with the boundary values tf(22)=0.6, tf(7)=0.8, tf(8)=1, tf(18)=1,
tf(19)=0.8. -/
theorem C4_time_factor (h : ℤ) (h0 : 0 ≤ h) (h23 : h ≤ 23) :
    (calculate_time_factor h = 6/10 ∨ calculate_time_factor h = 8/10 ∨
      calculate_time_factor h = 1) ∧
    ((22 ≤ h ∨ h ≤ 6) → calculate_time_factor h = 6/10) ∧
    ((8 ≤ h ∧ h ≤ 18) → calculate_time_factor h = 1) ∧
    (¬(22 ≤ h ∨ h ≤ 6) → ¬(8 ≤ h ∧ h ≤ 18) → calculate_time_factor h = 8/10) ∧
    calculate_time_factor 22 = 6/10 ∧ calculate_time_factor 7 = 8/10 ∧
    calculate_time_factor 8 = 1 ∧ calculate_time_factor 18 = 1 ∧
    calculate_time_factor 19 = 8/10 := by
  interval_cases h <;> norm_num [calculate_time_factor]

/-- Witness for C4 at hour 12. -/
theorem C4_time_factor_witness :
    calculate_time_factor 12 = 6/10 ∨ calculate_time_factor 12 = 8/10 ∨
      calculate_time_factor 12 = 1 :=
  (C4_time_factor 12 (by decide) (by decide)).1

/-- C5: `calculate_news_factor` returns exactly 1.0 when the database
filter yields no articles, or when no article is geographically relevant,
and returns exactly 1.0 whenever the computation raises — it never
propagates an exception. -/
theorem C5_news_factor_neutral_fallbacks :
    (∀ (fi : ℕ → Except String (List NewsImpactRow)) (d : ℚ → ℚ → ℚ → ℚ → ℚ)
      (cid : ℕ) (la lo : ℚ),
      calculate_news_factor (.ok []) fi d cid la lo = 1) ∧
    (∀ (arts : List NewsArticleRow) (fi : ℕ → Except String (List NewsImpactRow))
      (d : ℚ → ℚ → ℚ → ℚ → ℚ) (cid : ℕ) (la lo : ℚ),
      arts ≠ [] → arts.filter (geoRelevant d la lo cid) = [] →
      calculate_news_factor (.ok arts) fi d cid la lo = 1) ∧
    (∀ (fa : Except String (List NewsArticleRow))
      (fi : ℕ → Except String (List NewsImpactRow))
      (d : ℚ → ℚ → ℚ → ℚ → ℚ) (cid : ℕ) (la lo : ℚ) (e : String),
      newsFactorBody fa fi d cid la lo = .error e →
      calculate_news_factor fa fi d cid la lo = 1) := by
  refine ⟨?_, ?_, ?_⟩
  · intro fi d cid la lo
    simp [calculate_news_factor, newsFactorBody]
  · intro arts fi d cid la lo hne hfil
    simp [calculate_news_factor, newsFactorBody, hne, hfil]
  · intro fa fi d cid la lo e h
    simp [calculate_news_factor, h]

/-- Witness for C5: an empty fetch, a nonempty fetch whose only article is
geographically irrelevant, and a failing fetch all yield the neutral 1.0. -/
theorem C5_news_factor_neutral_fallbacks_witness :
    calculate_news_factor (.ok []) (fun _ => .ok []) distZero 0 0 0 = 1 ∧
    calculate_news_factor (.ok [cityTiedFarArticle]) (fun _ => .ok []) distFar 1 0 0 = 1 ∧
    calculate_news_factor (.error "boom") (fun _ => .ok []) distZero 0 0 0 = 1 :=
  ⟨C5_news_factor_neutral_fallbacks.1 (fun _ => .ok []) distZero 0 0 0,
   C5_news_factor_neutral_fallbacks.2.1 [cityTiedFarArticle] (fun _ => .ok [])
     distFar 1 0 0 (by simp)
     (by norm_num [List.filter, geoRelevant, truthy, radiusOrDefault, distFar,
       cityTiedFarArticle]),
   C5_news_factor_neutral_fallbacks.2.2 (.error "boom") (fun _ => .ok [])
     distZero 0 0 0 "boom" rfl⟩

lemma newsFactorBody_ok_range {fa : Except String (List NewsArticleRow)}
    {fi : ℕ → Except String (List NewsImpactRow)} {d : ℚ → ℚ → ℚ → ℚ → ℚ}
    {cid : ℕ} {la lo : ℚ} {v : ℚ}
    (h : newsFactorBody fa fi d cid la lo = .ok v) : 3/10 ≤ v ∧ v ≤ 3/2 := by
  cases fa with
  | error e => dsimp only [newsFactorBody] at h; simp at h
  | ok arts =>
    dsimp only [newsFactorBody] at h
    by_cases h1 : arts = []
    · rw [if_pos h1] at h
      obtain rfl : (1 : ℚ) = v := by simpa using h
      norm_num
    · rw [if_neg h1] at h
      by_cases h2 : arts.filter (geoRelevant d la lo cid) = []
      · rw [if_pos h2] at h
        obtain rfl : (1 : ℚ) = v := by simpa using h
        norm_num
      · rw [if_neg h2] at h
        cases hacc : accumImpacts fi (0, 0) (arts.filter (geoRelevant d la lo cid)) with
        | error e => rw [hacc] at h; simp at h
        | ok p =>
          rw [hacc] at h
          obtain ⟨ti, tw⟩ := p
          dsimp only at h
          by_cases h3 : 0 < tw
          · rw [if_pos h3] at h
            obtain rfl : max (3/10) (min (3/2) (ti / tw)) = v := by simpa using h
            refine ⟨le_max_left _ _, max_le (by norm_num) (min_le_left _ _)⟩
          · rw [if_neg h3] at h
            obtain rfl : (1 : ℚ) = v := by simpa using h
            norm_num

/-- C6: for every input — any article fetch, any impact fetch (including
extreme threat levels, sentiments, confidences and weights), any distance
oracle and any target — `calculate_news_factor` lies in [0.3, 1.5]. -/
theorem C6_news_factor_clamped (fa : Except String (List NewsArticleRow))
    (fi : ℕ → Except String (List NewsImpactRow)) (d : ℚ → ℚ → ℚ → ℚ → ℚ)
    (cid : ℕ) (la lo : ℚ) :
    3/10 ≤ calculate_news_factor fa fi d cid la lo ∧
      calculate_news_factor fa fi d cid la lo ≤ 3/2 := by
  unfold calculate_news_factor
  cases h : newsFactorBody fa fi d cid la lo with
  | error e => norm_num
  | ok v => exact newsFactorBody_ok_range h

/-- Counterexample to C7: `cityTiedFarArticle` passes the database filter
and is tied to the target city, yet the geographic filter drops it because
its coordinates are farther than its radius — so it is not aggregated
(the factor stays 1.0 despite its strong active impact), refuting "every
qualifying article tied to the target city_id is included regardless of its
coordinates". -/
theorem C7_city_tied_far_article_excluded :
    newsDbWhere 1 cityTiedFarArticle = true ∧
    cityTiedFarArticle.cityId = some 1 ∧
    distFar 0 0 10 10 > radiusOrDefault cityTiedFarArticle.locationRadius ∧
    cityTiedFarArticle ∉ [cityTiedFarArticle].filter (geoRelevant distFar 0 0 1) ∧
    newsFactorOfTables [cityTiedFarArticle] [strongImpact] distFar 1 0 0 = 1 := by
  refine ⟨?_, rfl, ?_, ?_, ?_⟩
  · norm_num [newsDbWhere, cityTiedFarArticle]
  · norm_num [distFar, radiusOrDefault, cityTiedFarArticle]
  · norm_num [List.filter, geoRelevant, truthy, radiusOrDefault, distFar, cityTiedFarArticle]
  · norm_num [newsFactorOfTables, calculate_news_factor, newsFactorBody, queryNewsArticles,
      queryImpacts, List.filter, newsDbWhere, geoRelevant, truthy, radiusOrDefault, distFar,
      cityTiedFarArticle, strongImpact]

/-- C7 (amended): the database filter keeps articles processed within the
last 7 days, relevant and processed, that are city-tied or fully
geo-tagged; the geographic filter then keeps an article with truthy
coordinates exactly when its distance to the target is at most its radius
(50 km when the radius is unset or 0), and an article without truthy
coordinates exactly when it is tied to the target city — a city-tied
article with far coordinates is excluded. -/
theorem C7_amended_aggregation (d : ℚ → ℚ → ℚ → ℚ → ℚ) (cid : ℕ) (la lo : ℚ)
    (arts : List NewsArticleRow) (a : NewsArticleRow) :
    (newsDbWhere cid a = true ↔
      ((a.cityId = some cid ∨
        (a.latitude ≠ none ∧ a.longitude ≠ none ∧ a.locationRadius ≠ none)) ∧
       (∃ t, a.processedAgo = some t ∧ t ≤ 7) ∧
       a.isRelevant = true ∧ a.isProcessed = true)) ∧
    (a ∈ arts.filter (geoRelevant d la lo cid) ↔ a ∈ arts ∧
      (if truthy a.latitude = true ∧ truthy a.longitude = true
       then d la lo (a.latitude.getD 0) (a.longitude.getD 0) ≤
         radiusOrDefault a.locationRadius
       else a.cityId = some cid)) ∧
    radiusOrDefault none = 50 ∧ radiusOrDefault (some 0) = 50 := by
  refine ⟨?_, ?_, rfl, by norm_num [radiusOrDefault]⟩
  · unfold newsDbWhere
    cases hpa : a.processedAgo with
    | none => simp [hpa]
    | some t =>
      simp [hpa, Bool.and_eq_true, Bool.or_eq_true, beq_iff_eq,
        Option.isSome_iff_ne_none, and_assoc]
  · rw [List.mem_filter]
    unfold geoRelevant
    by_cases hc : (truthy a.latitude && truthy a.longitude) = true
    · rw [if_pos hc]
      rw [Bool.and_eq_true] at hc
      rw [if_pos hc]
      simp
    · rw [if_neg hc]
      rw [Bool.and_eq_true] at hc
      rw [if_neg hc]
      simp

/-- Counterexample to C8: `expiredActiveImpact` is expired (its expiry
timestamp passed) yet still active, and `calculate_news_factor` does not
return the same value as if it were absent: with it the factor is 0.5,
without it the fallback gives 1.0 — the query never consults the expiry
column. -/
theorem C8_expired_impact_still_counted :
    expiredActiveImpact.expiresInDays < 0 ∧
    expiredActiveImpact.isActive = true ∧
    newsFactorOfTables [cityOnlyArticle] [expiredActiveImpact] distZero 1 0 0 = 1/2 ∧
    newsFactorOfTables [cityOnlyArticle] [] distZero 1 0 0 = 1 := by
  refine ⟨by norm_num [expiredActiveImpact], rfl, ?_, ?_⟩
  · norm_num [newsFactorOfTables, calculate_news_factor, newsFactorBody, queryNewsArticles,
      queryImpacts, List.filter, newsDbWhere, geoRelevant, truthy, accumImpacts, impactDelta,
      cityOnlyArticle, expiredActiveImpact, distZero]
  · norm_num [newsFactorOfTables, calculate_news_factor, newsFactorBody, queryNewsArticles,
      queryImpacts, List.filter, newsDbWhere, geoRelevant, truthy, accumImpacts, fallbackDelta,
      cityOnlyArticle, distZero]

/-- C8 (amended): an impact record contributes to the news factor only
while its active flag is true — for every impact with `isActive = false`,
`calculate_news_factor` returns the same value as if the record were
absent (the expiry timestamp is not consulted). -/
theorem C8_amended_inactive_excluded (articles : List NewsArticleRow)
    (impacts : List NewsImpactRow) (i : NewsImpactRow) (d : ℚ → ℚ → ℚ → ℚ → ℚ)
    (cid : ℕ) (la lo : ℚ) (hi : i.isActive = false) :
    newsFactorOfTables articles (i :: impacts) d cid la lo =
      newsFactorOfTables articles impacts d cid la lo := by
  have hq : (fun articleId => (Except.ok (queryImpacts (i :: impacts) articleId) :
      Except String (List NewsImpactRow))) =
      (fun articleId => .ok (queryImpacts impacts articleId)) := by
    funext articleId
    unfold queryImpacts
    rw [List.filter_cons_of_neg]
    simp [hi]
  unfold newsFactorOfTables calculate_news_factor
  rw [hq]

/-- Witness for the amended C8 at a concrete inactive impact. -/
theorem C8_amended_inactive_excluded_witness :
    inactiveImpact.isActive = false ∧
    newsFactorOfTables [cityOnlyArticle] [inactiveImpact] distZero 1 0 0 =
      newsFactorOfTables [cityOnlyArticle] [] distZero 1 0 0 :=
  ⟨rfl, C8_amended_inactive_excluded [cityOnlyArticle] [] inactiveImpact distZero 1 0 0 rfl⟩

/-- C9: the heatmap assigns each report to the cell
`(round(lat/grid_size)*grid_size, round(lon/grid_size)*grid_size)`; two
reports share a cell exactly when both rounded coordinates agree — e.g.
(1.0001, 1.0001) and (1.0049, 1.0049) with grid size 0.01 share cell
(1.00, 1.00) — and every output cell carries
`safety_score = calculate_reports_factor(cell reports) * 10` and
`report_count` the number of its reports, with no raw report list. -/
theorem C9_heatmap_cells (gs : ℚ) (hgs : gs ≠ 0) (reports : List VerifiedReport)
    (r1 r2 : VerifiedReport) (c : HeatmapCell) (hc : c ∈ get_safety_heatmap gs reports) :
    gridCell gs r1 =
      ((pyRound (r1.latitude / gs) : ℚ) * gs, (pyRound (r1.longitude / gs) : ℚ) * gs) ∧
    (gridCell gs r1 = gridCell gs r2 ↔
      (pyRound (r1.latitude / gs) = pyRound (r2.latitude / gs) ∧
       pyRound (r1.longitude / gs) = pyRound (r2.longitude / gs))) ∧
    c.safety_score = calculate_reports_factor
      ((reports.filter (fun r => gridCell gs r = (c.latitude, c.longitude))).map
        toSafetyReport) * 10 ∧
    c.report_count =
      (reports.filter (fun r => gridCell gs r = (c.latitude, c.longitude))).length ∧
    gridCell (1/100) raEx = (1, 1) ∧ gridCell (1/100) rbEx = (1, 1) := by
  obtain ⟨k, hk, rfl⟩ := List.mem_map.mp hc
  refine ⟨rfl, ?_, ?_, ?_, ?_, ?_⟩
  · unfold gridCell
    simp only [Prod.mk.injEq]
    constructor
    · rintro ⟨h1, h2⟩
      exact ⟨Int.cast_inj.mp (mul_right_cancel₀ hgs h1),
        Int.cast_inj.mp (mul_right_cancel₀ hgs h2)⟩
    · rintro ⟨h1, h2⟩
      rw [h1, h2]
      exact ⟨rfl, rfl⟩
  · show calculate_reports_factor _ * 10 = _
    rw [Prod.mk.eta]
  · show (List.filter _ reports).length = _
    rw [Prod.mk.eta]
  · norm_num [gridCell, raEx, pyRound, Int.fract]
  · norm_num [gridCell, rbEx, pyRound, Int.fract]

/-- Witness for C9: the two example reports with grid size 0.01 land in the
same cell because both coordinates round alike. -/
theorem C9_heatmap_cells_witness :
    gridCell (1/100) raEx = gridCell (1/100) rbEx ↔
      (pyRound (raEx.latitude / (1/100)) = pyRound (rbEx.latitude / (1/100)) ∧
       pyRound (raEx.longitude / (1/100)) = pyRound (rbEx.longitude / (1/100))) := by
  have hmem : (⟨1, 1, 5, 1⟩ : HeatmapCell) ∈ get_safety_heatmap (1/100) [raEx] := by
    have hmap : get_safety_heatmap (1/100) [raEx] = [⟨1, 1, 5, 1⟩] := by
      norm_num [get_safety_heatmap, dedupKeys, gridCell, raEx, pyRound, Int.fract,
        List.filter, calculate_reports_factor, toSafetyReport, reportScore, reportWeight,
        positive_types, negative_types]
    rw [hmap]
    exact List.mem_singleton.mpr rfl
  exact (C9_heatmap_cells (1/100) (by norm_num) [raEx] raEx rbEx ⟨1, 1, 5, 1⟩ hmem).2.1

/-- C10: when no City record exists for the requested id, the city safety
index computation does not consult the news pipeline: it substitutes the
neutral news factor 1.0 and still returns a score in [0, 10] computed from
the reports, time and density factors alone. -/
theorem C10_missing_city_neutral (reports : List SafetyReport) (act hour : ℤ)
    (fa : Except String (List NewsArticleRow))
    (fi : ℕ → Except String (List NewsImpactRow))
    (d : ℚ → ℚ → ℚ → ℚ → ℚ) (w : SafetyWeights) (cid : ℕ) :
    calculate_city_safety_index_full none reports act hour fa fi d w cid =
      calculate_city_safety_index w (calculate_reports_factor reports)
        (calculate_time_factor hour) (calculate_density_factor act) 1 ∧
    0 ≤ calculate_city_safety_index_full none reports act hour fa fi d w cid ∧
    calculate_city_safety_index_full none reports act hour fa fi d w cid ≤ 10 :=
  ⟨rfl, (score_bounds _).1, (score_bounds _).2⟩

end SoloMate
